import Mathlib

/-!
Shallow embedding of the Druckenmiller scoring engine of the `dexter`
repository (`src/dexter/tools/yfinance/agent/stanley_druckenmiller.py`)
and of the line-item normalizer (`src/dexter/tools/yfinance/fundamentals.py`).

Modelling conventions:
* Numeric values carried by records and prices are exact rationals (ℚ).
  Python's `x ** (1/n)` (real root) and `statistics.pstdev` (square root)
  are modelled with `Real.rpow` and `Real.sqrt` over ℝ, so the involved
  definitions are noncomputable but keep the exact real semantics of the
  source formulas.
* Python's `float(f"{x:.2f}")` / `float(f"{x:.1f}")` (format then reparse)
  is modelled by round-half-to-even at 2, resp. 1, decimal digits on the
  exact value (`roundTo2`, `roundTo1`).
* The rationale strings keep the sentences of the source; the numeric
  values interpolated into them by f-strings are elided, since no contract
  depends on the digits embedded in the prose.
* Record values are numbers (ℚ) by construction, so the defensive
  `isinstance(..., (int, float))` branches of the source are unreachable
  in the model and are not represented.
* Data fetching (network) is out of scope: the per-ticker agent body is
  embedded as a function of the already-fetched records, prices and
  market cap, exactly as the scorers receive them.
-/

namespace Dexter

/-- Round half to even: the integer nearest to `q`, ties going to the even
integer.  This is the rounding performed by Python's fixed-point float
formatting. -/
def rhe (q : ℚ) : ℤ :=
  if q - ⌊q⌋ < 1/2 then ⌊q⌋
  else if 1/2 < q - ⌊q⌋ then ⌊q⌋ + 1
  else if 2 ∣ ⌊q⌋ then ⌊q⌋ else ⌊q⌋ + 1

/-- Model of Python's `float(f"{x:.2f}")`: round to 2 decimal digits. -/
def roundTo2 (q : ℚ) : ℚ := (rhe (q * 100) : ℚ) / 100

/-- Model of Python's `float(f"{x:.1f}")`: round to 1 decimal digit. -/
def roundTo1 (q : ℚ) : ℚ := (rhe (q * 10) : ℚ) / 10

/-- One normalized financial record (one reporting period, newest first in a
list).  Each line item is either present with a numeric value or absent,
mirroring the sparse dicts produced by `yf_search_line_items`. -/
structure FinancialRecord where
  revenue : Option ℚ := none
  earnings_per_share : Option ℚ := none
  total_debt : Option ℚ := none
  shareholders_equity : Option ℚ := none
  net_income : Option ℚ := none
  free_cash_flow : Option ℚ := none
  ebit : Option ℚ := none
  ebitda : Option ℚ := none
  cash_and_equivalents : Option ℚ := none
deriving DecidableEq

/-- One price bar; only the close is consumed by the scorers. -/
structure PricePoint where
  close : Option ℚ := none
deriving DecidableEq

/-- Result of one sub-scorer: the dict `{"score": ..., "details": ...}`. -/
structure SubScore where
  score : ℚ
  details : String
deriving DecidableEq

/-- CAGR as computed by the source: `(latest / older) ** (1 / num_years) - 1`
with the real-power semantics of Python's `**`. -/
noncomputable def cagr (latest older : ℚ) (num_years : ℕ) : ℝ :=
  ((latest : ℝ) / (older : ℝ)) ^ ((1 : ℝ) / (num_years : ℝ)) - 1

/-- The rationale sentences of one CAGR block (revenue or EPS flavour). -/
structure CagrMsgs where
  strong : String
  moderate : String
  slight : String
  minimal : String
  nonpos : String
  notEnough : String

/-- The common CAGR sub-scale of `analyze_growth_and_momentum` (lines
104-143 and 148-183 of the source differ only in the metric and in the
rationale strings): newest value `values[0]`, oldest `values[-1]`,
`num_years = len(values) - 1`, guarded by positivity of both endpoints,
with strict thresholds 0.08 / 0.04 / 0.01 on the CAGR. -/
noncomputable def cagrBlock (values : List ℚ) (m : CagrMsgs) : ℕ × String :=
  if 2 ≤ values.length then
    if 0 < values.getLastD 0 ∧ 0 < values.headD 0 then
      if (0.08 : ℝ) < cagr (values.headD 0) (values.getLastD 0) (values.length - 1) then
        (3, m.strong)
      else if (0.04 : ℝ) < cagr (values.headD 0) (values.getLastD 0) (values.length - 1) then
        (2, m.moderate)
      else if (0.01 : ℝ) < cagr (values.headD 0) (values.getLastD 0) (values.length - 1) then
        (1, m.slight)
      else (0, m.minimal)
    else (0, m.nonpos)
  else (0, m.notEnough)

/-- Rationales of the revenue CAGR sub-scale. -/
def revMsgs : CagrMsgs where
  strong := "Strong annualized revenue growth"
  moderate := "Moderate annualized revenue growth"
  slight := "Slight annualized revenue growth"
  minimal := "Minimal/negative revenue growth"
  nonpos := "Older revenue is zero/negative; cannot compute revenue growth."
  notEnough := "Not enough revenue data points for growth calculation."

/-- Rationales of the EPS CAGR sub-scale. -/
def epsMsgs : CagrMsgs where
  strong := "Strong annualized EPS growth"
  moderate := "Moderate annualized EPS growth"
  slight := "Slight annualized EPS growth"
  minimal := "Minimal/negative annualized EPS growth"
  nonpos := "Older EPS is near zero; skipping EPS growth calculation."
  notEnough := "Not enough EPS data points for growth calculation."

/-- Revenue growth sub-scale (source lines 104-143). -/
noncomputable def revenueBlock (revenues : List ℚ) : ℕ × String :=
  cagrBlock revenues revMsgs

/-- EPS growth sub-scale (source lines 148-183). -/
noncomputable def epsBlock (eps_values : List ℚ) : ℕ × String :=
  cagrBlock eps_values epsMsgs

/-- Price-momentum sub-scale (source lines 189-213): only runs when the
price list has strictly more than 30 points; percentage change from the
first to the last available close over the whole supplied range, guarded by
a positive starting close; strict thresholds 0.50 / 0.20 / 0. -/
def momentumBlock (prices : List PricePoint) : ℕ × String :=
  if prices ≠ [] ∧ 30 < prices.length then
    if 2 ≤ (prices.filterMap (fun p => p.close)).length then
      if 0 < (prices.filterMap (fun p => p.close)).headD 0 then
        if 0.50 < ((prices.filterMap (fun p => p.close)).getLastD 0
              - (prices.filterMap (fun p => p.close)).headD 0)
              / (prices.filterMap (fun p => p.close)).headD 0 then
          (3, "Very strong price momentum")
        else if 0.20 < ((prices.filterMap (fun p => p.close)).getLastD 0
              - (prices.filterMap (fun p => p.close)).headD 0)
              / (prices.filterMap (fun p => p.close)).headD 0 then
          (2, "Moderate price momentum")
        else if 0 < ((prices.filterMap (fun p => p.close)).getLastD 0
              - (prices.filterMap (fun p => p.close)).headD 0)
              / (prices.filterMap (fun p => p.close)).headD 0 then
          (1, "Slight positive momentum")
        else (0, "Negative price momentum")
      else (0, "Invalid start price; cannot compute momentum.")
    else (0, "Insufficient price data for momentum calculation.")
  else (0, "Not enough recent price data for momentum analysis.")

/-- The Growth & Momentum scorer `analyze_growth_and_momentum` (source
lines 85-221): early exit below 2 records, three sub-scales each worth up
to 3 raw points, `min(10, raw / 9 * 10)` then the `.2f` round-trip. -/
noncomputable def analyze_growth_and_momentum
    (financial_line_items : List FinancialRecord) (prices : List PricePoint) :
    SubScore :=
  if financial_line_items = [] ∨ financial_line_items.length < 2 then
    { score := 0, details := "Insufficient financial data for growth analysis" }
  else
    { score := roundTo2 (min 10
        (((revenueBlock (financial_line_items.filterMap (fun fi => fi.revenue))).1
          + (epsBlock (financial_line_items.filterMap (fun fi => fi.earnings_per_share))).1
          + (momentumBlock prices).1 : ℕ) / 9 * 10)),
      details := String.intercalate "; "
        [(revenueBlock (financial_line_items.filterMap (fun fi => fi.revenue))).2,
         (epsBlock (financial_line_items.filterMap (fun fi => fi.earnings_per_share))).2,
         (momentumBlock prices).2] }

/-- Leverage sub-scale of `analyze_risk_reward` (source lines 240-272):
debt-to-equity of the newest period, with the newest equity replaced by
`1e-9` only when it is (Python-falsy, i.e. exactly) zero; strict upper
thresholds 0.3 / 0.7 / 1.5. -/
def leverageBlock (debt_values equity_values : List ℚ) : ℕ × String :=
  if debt_values ≠ [] ∧ equity_values ≠ [] ∧
      debt_values.length = equity_values.length ∧ 0 < debt_values.length then
    if debt_values.headD 0
        / (if equity_values.headD 0 = 0 then (1e-9 : ℚ) else equity_values.headD 0)
        < 0.3 then
      (3, "Low debt-to-equity")
    else if debt_values.headD 0
        / (if equity_values.headD 0 = 0 then (1e-9 : ℚ) else equity_values.headD 0)
        < 0.7 then
      (2, "Moderate debt-to-equity")
    else if debt_values.headD 0
        / (if equity_values.headD 0 = 0 then (1e-9 : ℚ) else equity_values.headD 0)
        < 1.5 then
      (1, "Somewhat high debt-to-equity")
    else (0, "High debt-to-equity")
  else (0, "No consistent debt/equity data available.")

/-- Day-over-day simple returns from consecutive closes, skipping pairs
whose previous close is not positive (source lines 287-291). -/
def dailyReturns : List ℚ → List ℚ
  | a :: b :: rest =>
      (if 0 < a then [(b - a) / a] else []) ++ dailyReturns (b :: rest)
  | _ => []

/-- Arithmetic mean (0 on the empty list, which is never reached under the
guards of the source). -/
def listMean (l : List ℚ) : ℚ := l.sum / l.length

/-- Population variance, as used by `statistics.pstdev` before the square
root. -/
def pvariance (l : List ℚ) : ℚ :=
  (l.map (fun x => (x - listMean l) ^ 2)).sum / l.length

/-- Volatility sub-scale of `analyze_risk_reward` (source lines 277-316):
needs more than 10 price points and more than 10 closes; population
standard deviation of the daily returns, inverted strict-upper thresholds
0.01 / 0.02 / 0.04. -/
noncomputable def volatilityBlock (prices : List PricePoint) : ℕ × String :=
  if 10 < prices.length then
    if 10 < (prices.filterMap (fun p => p.close)).length then
      if dailyReturns (prices.filterMap (fun p => p.close)) ≠ [] then
        if Real.sqrt (pvariance (dailyReturns (prices.filterMap (fun p => p.close))))
            < 0.01 then
          (3, "Low volatility")
        else if Real.sqrt (pvariance (dailyReturns (prices.filterMap (fun p => p.close))))
            < 0.02 then
          (2, "Moderate volatility")
        else if Real.sqrt (pvariance (dailyReturns (prices.filterMap (fun p => p.close))))
            < 0.04 then
          (1, "High volatility")
        else (0, "Very high volatility")
      else (0, "Insufficient daily returns data for volatility calc.")
    else (0, "Not enough close-price data points for volatility analysis.")
  else (0, "Not enough price data for volatility analysis.")

/-- The Risk & Reward scorer `analyze_risk_reward` (source lines 224-320):
early exit on empty records or prices, two sub-scales each worth up to 3
raw points, `min(10, raw / 6 * 10)` then the `.2f` round-trip. -/
noncomputable def analyze_risk_reward
    (financial_line_items : List FinancialRecord) (prices : List PricePoint) :
    SubScore :=
  if financial_line_items = [] ∨ prices = [] then
    { score := 0, details := "Insufficient data for risk-reward analysis" }
  else
    { score := roundTo2 (min 10
        (((leverageBlock (financial_line_items.filterMap (fun fi => fi.total_debt))
             (financial_line_items.filterMap (fun fi => fi.shareholders_equity))).1
          + (volatilityBlock prices).1 : ℕ) / 6 * 10)),
      details := String.intercalate "; "
        [(leverageBlock (financial_line_items.filterMap (fun fi => fi.total_debt))
            (financial_line_items.filterMap (fun fi => fi.shareholders_equity))).2,
         (volatilityBlock prices).2] }

/-- P/E sub-scale of `analyze_valuation` (source lines 372-387): the Python
truthiness guard `recent and recent > 0` is the conjunction below. -/
def peBlock (market_cap : ℚ) (net_incomes : List ℚ) : ℕ × String :=
  match net_incomes.head? with
  | some ni =>
      if ni ≠ 0 ∧ 0 < ni then
        if market_cap / ni < 15 then (2, "Attractive P/E")
        else if market_cap / ni < 25 then (1, "Fair P/E")
        else (0, "High or Very high P/E")
      else (0, "No positive net income for P/E calculation")
  | none => (0, "No positive net income for P/E calculation")

/-- P/FCF sub-scale of `analyze_valuation` (source lines 389-404). -/
def pfcfBlock (market_cap : ℚ) (fcf_values : List ℚ) : ℕ × String :=
  match fcf_values.head? with
  | some fcf =>
      if fcf ≠ 0 ∧ 0 < fcf then
        if market_cap / fcf < 15 then (2, "Attractive P/FCF")
        else if market_cap / fcf < 25 then (1, "Fair P/FCF")
        else (0, "High/Very high P/FCF")
      else (0, "No positive free cash flow for P/FCF calculation")
  | none => (0, "No positive free cash flow for P/FCF calculation")

/-- EV/EBIT sub-scale of `analyze_valuation` (source lines 406-421). -/
def evEbitBlock (enterprise_value : ℚ) (ebit_values : List ℚ) : ℕ × String :=
  match ebit_values.head? with
  | some ebit =>
      if 0 < enterprise_value ∧ ebit ≠ 0 ∧ 0 < ebit then
        if enterprise_value / ebit < 15 then (2, "Attractive EV/EBIT")
        else if enterprise_value / ebit < 25 then (1, "Fair EV/EBIT")
        else (0, "High EV/EBIT")
      else (0, "No valid EV/EBIT because EV <= 0 or EBIT <= 0")
  | none => (0, "No valid EV/EBIT because EV <= 0 or EBIT <= 0")

/-- EV/EBITDA sub-scale of `analyze_valuation` (source lines 423-438). -/
def evEbitdaBlock (enterprise_value : ℚ) (ebitda_values : List ℚ) : ℕ × String :=
  match ebitda_values.head? with
  | some ebitda =>
      if 0 < enterprise_value ∧ ebitda ≠ 0 ∧ 0 < ebitda then
        if enterprise_value / ebitda < 10 then (2, "Attractive EV/EBITDA")
        else if enterprise_value / ebitda < 18 then (1, "Fair EV/EBITDA")
        else (0, "High EV/EBITDA")
      else (0, "No valid EV/EBITDA because EV <= 0 or EBITDA <= 0")
  | none => (0, "No valid EV/EBITDA because EV <= 0 or EBITDA <= 0")

/-- Enterprise value (source line 370): `market_cap + recent_debt -
recent_cash`, with missing debt/cash defaulting to 0 (lines 367-368). -/
def enterpriseValue (market_cap : ℚ) (financial_line_items : List FinancialRecord) : ℚ :=
  market_cap
    + (financial_line_items.filterMap (fun fi => fi.total_debt)).headD 0
    - (financial_line_items.filterMap (fun fi => fi.cash_and_equivalents)).headD 0

/-- The Valuation scorer `analyze_valuation` (source lines 323-444): early
exit on empty records or absent market cap, four ratio sub-scales worth up
to 2 raw points each, `min(10, raw / 8 * 10)` then the `.2f` round-trip. -/
def analyze_valuation
    (financial_line_items : List FinancialRecord) (market_cap : Option ℚ) :
    SubScore :=
  match market_cap with
  | none => { score := 0, details := "Insufficient data to perform valuation" }
  | some mc =>
      if financial_line_items = [] then
        { score := 0, details := "Insufficient data to perform valuation" }
      else
        { score := roundTo2 (min 10
            (((peBlock mc (financial_line_items.filterMap (fun fi => fi.net_income))).1
              + (pfcfBlock mc (financial_line_items.filterMap (fun fi => fi.free_cash_flow))).1
              + (evEbitBlock (enterpriseValue mc financial_line_items)
                  (financial_line_items.filterMap (fun fi => fi.ebit))).1
              + (evEbitdaBlock (enterpriseValue mc financial_line_items)
                  (financial_line_items.filterMap (fun fi => fi.ebitda))).1 : ℕ)
              / 8 * 10)),
          details := String.intercalate "; "
            [(peBlock mc (financial_line_items.filterMap (fun fi => fi.net_income))).2,
             (pfcfBlock mc (financial_line_items.filterMap (fun fi => fi.free_cash_flow))).2,
             (evEbitBlock (enterpriseValue mc financial_line_items)
                (financial_line_items.filterMap (fun fi => fi.ebit))).2,
             (evEbitdaBlock (enterpriseValue mc financial_line_items)
                (financial_line_items.filterMap (fun fi => fi.ebitda))).2] }

/-- Signal bands of the agent (source lines 62-69), applied to the unrounded
sum of the three sub-scores. -/
def signalOf (total_score : ℚ) : String :=
  if 22 ≤ total_score then "Strong Buy"
  else if 16 ≤ total_score then "Buy"
  else if 10 ≤ total_score then "Hold"
  else "Sell"

/-- The per-ticker composite report (source lines 71-80; the sentiment and
insider fields are the constant `None` in the source and are omitted). -/
structure Report where
  signal : String
  score : ℚ
  max_score : ℕ
  growth_momentum_analysis : SubScore
  risk_reward_analysis : SubScore
  valuation_analysis : SubScore
deriving DecidableEq

/-- Per-ticker body of `stanley_druckenmiller_agent` (source lines 49-80)
after the data has been fetched: runs the three scorers, sums their scores,
fixes `max_possible_score = 30`, derives the signal from the unrounded
total and reports the total after the `.1f` round-trip. -/
noncomputable def stanley_druckenmiller_agent
    (financial_line_items : List FinancialRecord) (prices : List PricePoint)
    (market_cap : Option ℚ) : Report :=
  { signal := signalOf
      ((analyze_growth_and_momentum financial_line_items prices).score
        + (analyze_risk_reward financial_line_items prices).score
        + (analyze_valuation financial_line_items market_cap).score),
    score := roundTo1
      ((analyze_growth_and_momentum financial_line_items prices).score
        + (analyze_risk_reward financial_line_items prices).score
        + (analyze_valuation financial_line_items market_cap).score),
    max_score := 30,
    growth_momentum_analysis := analyze_growth_and_momentum financial_line_items prices,
    risk_reward_analysis := analyze_risk_reward financial_line_items prices,
    valuation_analysis := analyze_valuation financial_line_items market_cap }

/-- A loaded statement frame, as returned by `load_statement_frame`: the
column labels are the report dates, the index labels are the line items,
and each cell is a number or missing (pandas `NaN`). `rows` are aligned
with `dates` positionally. -/
structure Frame where
  dates : List Int
  rows : List (String × List (Option ℚ))
deriving DecidableEq

/-- pandas `DataFrame.empty`: true when either axis has length 0. -/
def Frame.isEmpty (f : Frame) : Bool := f.dates.isEmpty || f.rows.isEmpty

/-- One output record of the normalizer: the period plus the sparse mapping
from requested line item to value. -/
structure LineItemRecord where
  period : Int
  fields : List (String × ℚ)
deriving DecidableEq

/-- One frame's rows as (label, present cells keyed by date); missing cells
(pandas `NaN`) are dropped here and reappear as lookup misses, matching the
`pd.notna` filter of `get_val`. -/
def frameCells (f : Frame) : List (String × List (Int × ℚ)) :=
  f.rows.map (fun r =>
    (r.1, (f.dates.zip r.2).filterMap (fun c => c.2.map (fun v => (c.1, v)))))

/-- `combined.loc[~combined.index.duplicated(keep="first")]`: drop rows
whose label already occurred earlier. -/
def dedupKeepFirst : List (String × List (Int × ℚ)) → List (String × List (Int × ℚ))
  | [] => []
  | r :: rest => r :: dedupKeepFirst (rest.filter (fun p => p.1 ≠ r.1))
termination_by l => l.length
decreasing_by
  simp only [List.length_cons]
  exact Nat.lt_succ_of_le (List.length_filter_le _ _)

/-- The concatenated statement rows, first-frame-wins on duplicate labels
(`pd.concat` then duplicate-index removal). -/
def combinedRows (frames : List Frame) : List (String × List (Int × ℚ)) :=
  dedupKeepFirst (frames.flatMap frameCells)

/-- Insert into a descending-sorted list of dates. -/
def insertDesc (d : Int) : List Int → List Int
  | [] => [d]
  | x :: xs => if x ≤ d then d :: x :: xs else x :: insertDesc d xs

/-- The union of the frames' report dates, sorted newest first and truncated
(`combined.T.sort_index(ascending=False).head(limit)`). -/
def sortedDates (frames : List Frame) (limit : ℕ) : List Int :=
  (((frames.flatMap (fun f => f.dates)).dedup).foldr insertDesc []).take limit

/-- The `get_val` helper of the source: first source label among `keys` that
exists in the combined index and has a present (non-NaN) value at this
date. -/
def getVal (rows : List (String × List (Int × ℚ))) (date : Int) :
    List String → Option ℚ
  | [] => none
  | k :: ks =>
      match (rows.find? (fun p => p.1 = k)).bind
          (fun p => (p.2.find? (fun c => c.1 = date)).map (fun c => c.2)) with
      | some v => some v
      | none => getVal rows date ks

/-- The alias table of `yf_search_line_items` (source lines 299-319). -/
def lineItemMapping (item : String) : Option (List String) :=
  if item = "revenue" then some ["Total Revenue", "Operating Revenue"]
  else if item = "earnings_per_share" then some ["Basic EPS", "Diluted EPS"]
  else if item = "net_income" then some ["Net Income", "Net Income Common Stockholders"]
  else if item = "operating_income" then some ["Operating Income"]
  else if item = "free_cash_flow" then some ["Free Cash Flow"]
  else if item = "capital_expenditure" then some ["Capital Expenditure"]
  else if item = "cash_and_equivalents" then some ["Cash And Cash Equivalents"]
  else if item = "total_debt" then some ["Total Debt"]
  else if item = "shareholders_equity" then
    some ["Stockholders Equity", "Total Equity Gross Minority Interest"]
  else if item = "outstanding_shares" then some ["Share Issued", "Basic Average Shares"]
  else if item = "ebit" then some ["EBIT"]
  else if item = "ebitda" then some ["EBITDA"]
  else if item = "gross_margin" then some []
  else if item = "operating_margin" then some []
  else if item = "ev" then some []
  else none

/-- EBIT fallback value: `net_income + interest_expense + tax_provision`
when all three are present (source lines 370-378). -/
def ebitFallback (rows : List (String × List (Int × ℚ))) (date : Int) : Option ℚ :=
  match getVal rows date ["Net Income", "Net Income Common Stockholders"],
      getVal rows date ["Interest Expense"], getVal rows date ["Tax Provision"] with
  | some ni, some ie, some tp => some (ni + ie + tp)
  | _, _, _ => none

/-- The value of one requested line item at one date, including the derived
margins and the EBIT/EBITDA fallbacks (source lines 351-403). -/
def lineItemValue (rows : List (String × List (Int × ℚ))) (date : Int)
    (item : String) : Option ℚ :=
  match lineItemMapping item with
  | some keys =>
      if item = "gross_margin" then
        match getVal rows date ["Gross Profit"],
            getVal rows date ["Total Revenue", "Operating Revenue"] with
        | some gp, some tr => if tr ≠ 0 then some (gp / tr) else getVal rows date keys
        | _, _ => getVal rows date keys
      else if item = "operating_margin" then
        match getVal rows date ["Operating Income"],
            getVal rows date ["Total Revenue", "Operating Revenue"] with
        | some oi, some tr => if tr ≠ 0 then some (oi / tr) else getVal rows date keys
        | _, _ => getVal rows date keys
      else if item = "ebit" then
        match getVal rows date keys with
        | some v => some v
        | none => ebitFallback rows date
      else if item = "ebitda" then
        match getVal rows date keys with
        | some v => some v
        | none =>
            match (match getVal rows date ["EBIT"] with
                   | some v => some v
                   | none => ebitFallback rows date),
                getVal rows date ["Reconciled Depreciation", "Depreciation And Amortization"] with
            | some ev, some da => some (ev + da)
            | _, _ => none
      else getVal rows date keys
  | none => getVal rows date [item]

/-- One output record at one report date (source lines 321-405). -/
def buildRecord (rows : List (String × List (Int × ℚ))) (date : Int)
    (line_items : List String) : LineItemRecord :=
  { period := date,
    fields := line_items.filterMap (fun item =>
      (lineItemValue rows date item).map (fun v => (item, v))) }

/-- The record list built from the non-empty statement frames. -/
def buildRecords (frames : List Frame) (line_items : List String) (limit : ℕ) :
    List LineItemRecord :=
  (sortedDates frames limit).map (fun d => buildRecord (combinedRows frames) d line_items)

/-- The normalizer `yf_search_line_items` (source lines 238-407), taking the
three already-loaded statement frames (income, balance sheet, cash flow;
`none` when unavailable): rejects any period other than "annual" with a
`ValueError`, returns the empty list when every frame is missing or empty,
and otherwise merges the frames into per-period records. -/
def yf_search_line_items (income balance cashflow : Option Frame)
    (line_items : List String) (period : String) (limit : ℕ) :
    Except String (List LineItemRecord) :=
  if period ≠ "annual" then
    Except.error "Only annual period is supported for yf_search_line_items"
  else
    if ([income, balance, cashflow].filterMap id).filter
        (fun f => ¬ f.isEmpty) = [] then
      Except.ok []
    else
      Except.ok (buildRecords
        (([income, balance, cashflow].filterMap id).filter (fun f => ¬ f.isEmpty))
        line_items limit)

/-- Concrete input used to exhibit the rounding gap of the composite score:
two periods with slight revenue growth, 1.0 debt-to-equity and a fair P/E. -/
def exRecords : List FinancialRecord :=
  [{ revenue := some 102, total_debt := some 100, shareholders_equity := some 100,
     net_income := some 50 },
   { revenue := some 100, total_debt := some 50, shareholders_equity := some 50 }]

/-- Two price bars: momentum and volatility sub-scales are both skipped. -/
def exPrices : List PricePoint := [{ close := some 10 }, { close := some 11 }]

/-- Round-half-to-even is at distance at most 1/2 from its argument. -/
theorem abs_rhe_sub (q : ℚ) : |(rhe q : ℚ) - q| ≤ 1/2 := by
  have hfl : (⌊q⌋ : ℚ) ≤ q := Int.floor_le q
  have hfu : q < ⌊q⌋ + 1 := Int.lt_floor_add_one q
  unfold rhe
  split_ifs with h1 h2 h3
  · rw [abs_sub_comm, abs_of_nonneg (by linarith)]
    linarith
  · push_cast
    rw [abs_of_nonneg (by linarith)]
    linarith
  · rw [abs_sub_comm, abs_of_nonneg (by linarith)]
    linarith
  · push_cast
    rw [abs_of_nonneg (by linarith)]
    linarith

/-- Round-half-to-even of a nonnegative rational is nonnegative. -/
theorem rhe_nonneg {q : ℚ} (h : 0 ≤ q) : 0 ≤ rhe q := by
  have hfl : 0 ≤ ⌊q⌋ := Int.floor_nonneg.mpr h
  unfold rhe
  split_ifs <;> omega

/-- The 2-decimal round-trip moves a value by at most half of the last
retained digit. -/
theorem abs_roundTo2_sub (q : ℚ) : |roundTo2 q - q| ≤ 1/200 := by
  have h := abs_rhe_sub (q * 100)
  unfold roundTo2
  have hq : (rhe (q * 100) : ℚ) / 100 - q = ((rhe (q * 100) : ℚ) - q * 100) / 100 := by
    ring
  rw [hq, abs_div, abs_of_pos (by norm_num : (0:ℚ) < 100)]
  linarith

/-- The 1-decimal round-trip moves a value by at most half of the last
retained digit. -/
theorem abs_roundTo1_sub (q : ℚ) : |roundTo1 q - q| ≤ 1/20 := by
  have h := abs_rhe_sub (q * 10)
  unfold roundTo1
  have hq : (rhe (q * 10) : ℚ) / 10 - q = ((rhe (q * 10) : ℚ) - q * 10) / 10 := by
    ring
  rw [hq, abs_div, abs_of_pos (by norm_num : (0:ℚ) < 10)]
  linarith

/-- The 2-decimal round-trip preserves nonnegativity. -/
theorem roundTo2_nonneg {q : ℚ} (h : 0 ≤ q) : 0 ≤ roundTo2 q := by
  unfold roundTo2
  have h0 : (0:ℤ) ≤ rhe (q * 100) := rhe_nonneg (by positivity)
  exact div_nonneg (by exact_mod_cast h0) (by norm_num)

/-- The 2-decimal round-trip preserves the upper bound 10. -/
theorem roundTo2_le_ten {q : ℚ} (h : q ≤ 10) : roundTo2 q ≤ 10 := by
  have habs := abs_rhe_sub (q * 100)
  have h1 : (rhe (q * 100) : ℚ) ≤ q * 100 + 1/2 := by
    have := abs_le.mp habs
    linarith [this.2]
  have h2 : (rhe (q * 100) : ℚ) < 1001 := by linarith
  have h3 : rhe (q * 100) ≤ 1000 := by
    have : rhe (q * 100) < (1001 : ℤ) := by exact_mod_cast h2
    omega
  unfold roundTo2
  have : (rhe (q * 100) : ℚ) ≤ 1000 := by exact_mod_cast h3
  linarith

/-- A semicolon-joined pair of rationale sentences is never empty. -/
theorem intercalate2_ne_empty (a b : String) :
    String.intercalate "; " [a, b] ≠ "" := by
  have h : String.intercalate "; " [a, b] = a ++ "; " ++ b := rfl
  intro hc
  rw [h] at hc
  have hl := congrArg String.length hc
  simp only [String.length_append] at hl
  have h2 : ("; " : String).length = 2 := rfl
  rw [h2] at hl
  simp at hl

/-- A semicolon-joined triple of rationale sentences is never empty. -/
theorem intercalate3_ne_empty (a b c : String) :
    String.intercalate "; " [a, b, c] ≠ "" := by
  have h : String.intercalate "; " [a, b, c] = a ++ "; " ++ b ++ "; " ++ c := rfl
  intro hc
  rw [h] at hc
  have hl := congrArg String.length hc
  simp only [String.length_append] at hl
  have h2 : ("; " : String).length = 2 := rfl
  rw [h2] at hl
  simp at hl

/-- A semicolon-joined quadruple of rationale sentences is never empty. -/
theorem intercalate4_ne_empty (a b c d : String) :
    String.intercalate "; " [a, b, c, d] ≠ "" := by
  have h : String.intercalate "; " [a, b, c, d] = a ++ "; " ++ b ++ "; " ++ c ++ "; " ++ d := rfl
  intro hc
  rw [h] at hc
  have hl := congrArg String.length hc
  simp only [String.length_append] at hl
  have h2 : ("; " : String).length = 2 := rfl
  rw [h2] at hl
  simp at hl

/-- With a single compounding period, the CAGR is the plain growth rate. -/
theorem cagr_one (latest older : ℚ) : cagr latest older 1 = (latest : ℝ) / older - 1 := by
  unfold cagr
  norm_num

/-- The CAGR sub-scale under its guards is the threshold comparison on the
CAGR of the newest over the oldest value. -/
theorem cagrBlock_pos (values : List ℚ) (m : CagrMsgs)
    (h2 : 2 ≤ values.length) (hpos : 0 < values.getLastD 0 ∧ 0 < values.headD 0) :
    cagrBlock values m =
      (if (0.08 : ℝ) < cagr (values.headD 0) (values.getLastD 0) (values.length - 1) then
        (3, m.strong)
      else if (0.04 : ℝ) < cagr (values.headD 0) (values.getLastD 0) (values.length - 1) then
        (2, m.moderate)
      else if (0.01 : ℝ) < cagr (values.headD 0) (values.getLastD 0) (values.length - 1) then
        (1, m.slight)
      else (0, m.minimal)) := by
  unfold cagrBlock
  rw [if_pos h2, if_pos hpos]

/-- The CAGR sub-scale awards at most 3 raw points. -/
theorem cagrBlock_le_three (values : List ℚ) (m : CagrMsgs) :
    (cagrBlock values m).1 ≤ 3 := by
  unfold cagrBlock
  split_ifs <;> norm_num

/-- The momentum sub-scale awards at most 3 raw points. -/
theorem momentumBlock_le_three (prices : List PricePoint) :
    (momentumBlock prices).1 ≤ 3 := by
  unfold momentumBlock
  split_ifs <;> norm_num

/-- The leverage sub-scale awards at most 3 raw points. -/
theorem leverageBlock_le_three (debt_values equity_values : List ℚ) :
    (leverageBlock debt_values equity_values).1 ≤ 3 := by
  unfold leverageBlock
  split_ifs <;> norm_num

/-- The volatility sub-scale awards at most 3 raw points. -/
theorem volatilityBlock_le_three (prices : List PricePoint) :
    (volatilityBlock prices).1 ≤ 3 := by
  unfold volatilityBlock
  split_ifs <;> norm_num

/-- Each valuation ratio sub-scale awards at most 2 raw points. -/
theorem peBlock_le_two (market_cap : ℚ) (net_incomes : List ℚ) :
    (peBlock market_cap net_incomes).1 ≤ 2 := by
  unfold peBlock
  rcases net_incomes.head? with _ | x
  · norm_num
  · dsimp only
    split_ifs <;> norm_num

/-- The P/FCF sub-scale awards at most 2 raw points. -/
theorem pfcfBlock_le_two (market_cap : ℚ) (fcf_values : List ℚ) :
    (pfcfBlock market_cap fcf_values).1 ≤ 2 := by
  unfold pfcfBlock
  rcases fcf_values.head? with _ | x
  · norm_num
  · dsimp only
    split_ifs <;> norm_num

/-- The EV/EBIT sub-scale awards at most 2 raw points. -/
theorem evEbitBlock_le_two (enterprise_value : ℚ) (ebit_values : List ℚ) :
    (evEbitBlock enterprise_value ebit_values).1 ≤ 2 := by
  unfold evEbitBlock
  rcases ebit_values.head? with _ | x
  · norm_num
  · dsimp only
    split_ifs <;> norm_num

/-- The EV/EBITDA sub-scale awards at most 2 raw points. -/
theorem evEbitdaBlock_le_two (enterprise_value : ℚ) (ebitda_values : List ℚ) :
    (evEbitdaBlock enterprise_value ebitda_values).1 ≤ 2 := by
  unfold evEbitdaBlock
  rcases ebitda_values.head? with _ | x
  · norm_num
  · dsimp only
    split_ifs <;> norm_num

/-- A scaled-and-rounded raw score always lies in the reported band. -/
theorem scaled_score_bounds (raw den : ℕ) :
    0 ≤ roundTo2 (min 10 ((raw : ℚ) / den * 10))
      ∧ roundTo2 (min 10 ((raw : ℚ) / den * 10)) ≤ 10 := by
  have h0 : 0 ≤ min 10 ((raw : ℚ) / den * 10) :=
    le_min (by norm_num) (by positivity)
  have h1 : min 10 ((raw : ℚ) / den * 10) ≤ 10 := min_le_left _ _
  exact ⟨roundTo2_nonneg h0, roundTo2_le_ten h1⟩

/-- Revenue sub-scale on the sample revenues 102 then 100: a 2% one-year
CAGR lands in the slight tier worth 1 raw point. -/
theorem revenueBlock_ex :
    revenueBlock [(102:ℚ), 100] = (1, "Slight annualized revenue growth") := by
  have hc : cagr (102:ℚ) (100:ℚ) 1 = (1/50 : ℝ) := by
    rw [cagr_one]
    push_cast
    norm_num
  unfold revenueBlock cagrBlock
  rw [if_pos (by norm_num), if_pos (by norm_num)]
  simp only [List.headD_cons, List.getLastD_cons, List.getLastD_nil, List.length_cons,
    List.length_nil]
  norm_num [hc, revMsgs]

/-- Growth score of the sample input: raw point total 1 of 9, reported as
1.11 after scaling and rounding. -/
theorem growth_score_ex :
    (analyze_growth_and_momentum exRecords exPrices).score = 111/100 := by
  unfold analyze_growth_and_momentum
  rw [if_neg (by decide)]
  have h1 : exRecords.filterMap (fun fi => fi.revenue) = [102, 100] := by decide
  have h2 : exRecords.filterMap (fun fi => fi.earnings_per_share) = [] := by decide
  have h3 : epsBlock [] = (0, "Not enough EPS data points for growth calculation.") := rfl
  have h4 : momentumBlock exPrices
      = (0, "Not enough recent price data for momentum analysis.") := rfl
  rw [h1, h2, revenueBlock_ex, h3, h4]
  show roundTo2 (min 10 (((1 + 0 + 0 : ℕ) : ℚ) / 9 * 10)) = 111 / 100
  have h5 : ((1 + 0 + 0 : ℕ) : ℚ) / 9 * 10 = 10 / 9 := by norm_num
  rw [h5, min_eq_right (by norm_num : (10:ℚ) / 9 ≤ 10)]
  norm_num [roundTo2, rhe]

/-- Leverage sub-scale on the sample debt/equity series: a ratio of 1.0 is
in the somewhat-high tier worth 1 raw point. -/
theorem leverageBlock_ex :
    leverageBlock [(100:ℚ), 50] [(100:ℚ), 50] = (1, "Somewhat high debt-to-equity") := by
  unfold leverageBlock
  rw [if_pos ⟨by simp, by simp, rfl, by simp⟩]
  norm_num

/-- Risk score of the sample input: raw point total 1 of 6, reported as
1.67 after scaling and rounding. -/
theorem risk_score_ex :
    (analyze_risk_reward exRecords exPrices).score = 167/100 := by
  unfold analyze_risk_reward
  rw [if_neg (by decide)]
  have h1 : exRecords.filterMap (fun fi => fi.total_debt) = [100, 50] := by decide
  have h2 : exRecords.filterMap (fun fi => fi.shareholders_equity) = [100, 50] := by decide
  have h3 : volatilityBlock exPrices
      = (0, "Not enough price data for volatility analysis.") := rfl
  rw [h1, h2, leverageBlock_ex, h3]
  show roundTo2 (min 10 (((1 + 0 : ℕ) : ℚ) / 6 * 10)) = 167 / 100
  have h5 : ((1 + 0 : ℕ) : ℚ) / 6 * 10 = 10 / 6 := by norm_num
  rw [h5, min_eq_right (by norm_num : (10:ℚ) / 6 ≤ 10)]
  norm_num [roundTo2, rhe]

/-- P/E sub-scale on the sample numbers: a P/E of 20 is in the fair tier
worth 1 raw point. -/
theorem peBlock_ex : peBlock 1000 [(50:ℚ)] = (1, "Fair P/E") := by
  unfold peBlock
  norm_num

/-- Valuation score of the sample input: raw point total 1 of 8, reported
as 1.25 after scaling and rounding. -/
theorem valuation_score_ex :
    (analyze_valuation exRecords (some 1000)).score = 125/100 := by
  simp only [analyze_valuation]
  rw [if_neg (by decide)]
  have h1 : exRecords.filterMap (fun fi => fi.net_income) = [50] := by decide
  have h2 : exRecords.filterMap (fun fi => fi.free_cash_flow) = [] := by decide
  have h3 : exRecords.filterMap (fun fi => fi.ebit) = [] := by decide
  have h4 : exRecords.filterMap (fun fi => fi.ebitda) = [] := by decide
  have hev : enterpriseValue 1000 exRecords = 1100 := by
    unfold enterpriseValue
    have hd : exRecords.filterMap (fun fi => fi.total_debt) = [100, 50] := by decide
    have hc : exRecords.filterMap (fun fi => fi.cash_and_equivalents) = [] := by decide
    rw [hd, hc]
    norm_num
  have h5 : pfcfBlock 1000 []
      = (0, "No positive free cash flow for P/FCF calculation") := rfl
  have h6 : evEbitBlock 1100 []
      = (0, "No valid EV/EBIT because EV <= 0 or EBIT <= 0") := rfl
  have h7 : evEbitdaBlock 1100 []
      = (0, "No valid EV/EBITDA because EV <= 0 or EBITDA <= 0") := rfl
  rw [h1, h2, h3, h4, hev, peBlock_ex, h5, h6, h7]
  show roundTo2 (min 10 (((1 + 0 + 0 + 0 : ℕ) : ℚ) / 8 * 10)) = 125 / 100
  have h8 : ((1 + 0 + 0 + 0 : ℕ) : ℚ) / 8 * 10 = 10 / 8 := by norm_num
  rw [h8, min_eq_right (by norm_num : (10:ℚ) / 8 ≤ 10)]
  norm_num [roundTo2, rhe]

/-- C1 counterexample: the reported composite `score` is the `.1f`-rounded
total, so at the sample input with sub-scores 1.11, 1.67 and 1.25 the
report carries 4.0 while the exact sum of the computed sub-scores is 4.03
— the `score` field does not equal the sum exactly. -/
theorem spec_C1_counterexample :
    (stanley_druckenmiller_agent exRecords exPrices (some 1000)).score
      ≠ (analyze_growth_and_momentum exRecords exPrices).score
        + (analyze_risk_reward exRecords exPrices).score
        + (analyze_valuation exRecords (some 1000)).score := by
  unfold stanley_druckenmiller_agent
  show roundTo1 _ ≠ _
  rw [growth_score_ex, risk_score_ex, valuation_score_ex]
  have h : (111/100 : ℚ) + 167/100 + 125/100 = 403/100 := by norm_num
  rw [h]
  have h2 : roundTo1 (403/100) = 4 := by norm_num [roundTo1, rhe]
  rw [h2]
  norm_num

/-- C1 (amended): for every input, the composite report's `score` equals
the sum of the three computed sub-scores rounded to one decimal place
(hence within 0.05 of the exact sum), and its `max_score` is the constant
30 — the valuation scorer is always run by the agent. -/
theorem spec_C1_amended (financial_line_items : List FinancialRecord)
    (prices : List PricePoint) (market_cap : Option ℚ) :
    (stanley_druckenmiller_agent financial_line_items prices market_cap).score
      = roundTo1 ((analyze_growth_and_momentum financial_line_items prices).score
          + (analyze_risk_reward financial_line_items prices).score
          + (analyze_valuation financial_line_items market_cap).score)
    ∧ |(stanley_druckenmiller_agent financial_line_items prices market_cap).score
        - ((analyze_growth_and_momentum financial_line_items prices).score
          + (analyze_risk_reward financial_line_items prices).score
          + (analyze_valuation financial_line_items market_cap).score)| ≤ 1/20
    ∧ (stanley_druckenmiller_agent financial_line_items prices market_cap).max_score = 30
    ∧ (stanley_druckenmiller_agent financial_line_items prices market_cap).valuation_analysis
        = analyze_valuation financial_line_items market_cap :=
  ⟨rfl, abs_roundTo1_sub _, rfl, rfl⟩

/-- C2: with the fixed 30-point ceiling, the agent's signal is derived from
the unrounded total of the three sub-scores by the bands `>=22` Strong Buy,
`>=16` Buy, `>=10` Hold, otherwise Sell. -/
theorem spec_C2 :
    (∀ (financial_line_items : List FinancialRecord) (prices : List PricePoint)
        (market_cap : Option ℚ),
      (stanley_druckenmiller_agent financial_line_items prices market_cap).signal
        = signalOf ((analyze_growth_and_momentum financial_line_items prices).score
            + (analyze_risk_reward financial_line_items prices).score
            + (analyze_valuation financial_line_items market_cap).score)
      ∧ (stanley_druckenmiller_agent financial_line_items prices market_cap).max_score = 30)
    ∧ ∀ t : ℚ,
      (22 ≤ t → signalOf t = "Strong Buy")
      ∧ (t < 22 → 16 ≤ t → signalOf t = "Buy")
      ∧ (t < 16 → 10 ≤ t → signalOf t = "Hold")
      ∧ (t < 10 → signalOf t = "Sell") := by
  constructor
  · exact fun _ _ _ => ⟨rfl, rfl⟩
  · intro t
    refine ⟨fun h => ?_, fun h1 h2 => ?_, fun h1 h2 => ?_, fun h => ?_⟩ <;> unfold signalOf
    · rw [if_pos h]
    · rw [if_neg (not_le.mpr h1), if_pos h2]
    · rw [if_neg (not_le.mpr (by linarith)), if_neg (not_le.mpr h1), if_pos h2]
    · rw [if_neg (not_le.mpr (by linarith)), if_neg (not_le.mpr (by linarith)),
        if_neg (not_le.mpr h)]

/-- Witness for C2 at the four bands. -/
theorem spec_C2_witness :
    signalOf 23 = "Strong Buy" ∧ signalOf 17 = "Buy"
      ∧ signalOf 11 = "Hold" ∧ signalOf 3 = "Sell" :=
  ⟨(spec_C2.2 23).1 (by norm_num),
   (spec_C2.2 17).2.1 (by norm_num) (by norm_num),
   (spec_C2.2 11).2.2.1 (by norm_num) (by norm_num),
   (spec_C2.2 3).2.2.2 (by norm_num)⟩

/-- C3: with at least 2 collected revenue values whose newest and oldest
entries are both positive, the revenue sub-scale scores the CAGR
`(latest/oldest)^(1/n) - 1` (with `n` = count minus one) by the strict
thresholds `>0.08` for 3 points, `>0.04` for 2, `>0.01` for 1, else 0; in
particular a CAGR of exactly 0.08 earns 2 points, not 3. -/
theorem spec_C3 (revenues : List ℚ) (l o : ℚ)
    (hlen : 2 ≤ revenues.length) (hl : revenues.headD 0 = l)
    (ho : revenues.getLastD 0 = o) (hop : 0 < o) (hlp : 0 < l) :
    ((0.08 : ℝ) < cagr l o (revenues.length - 1) → (revenueBlock revenues).1 = 3)
    ∧ (cagr l o (revenues.length - 1) ≤ (0.08 : ℝ) →
        (0.04 : ℝ) < cagr l o (revenues.length - 1) → (revenueBlock revenues).1 = 2)
    ∧ (cagr l o (revenues.length - 1) ≤ (0.04 : ℝ) →
        (0.01 : ℝ) < cagr l o (revenues.length - 1) → (revenueBlock revenues).1 = 1)
    ∧ (cagr l o (revenues.length - 1) ≤ (0.01 : ℝ) → (revenueBlock revenues).1 = 0)
    ∧ (cagr l o (revenues.length - 1) = (0.08 : ℝ) → (revenueBlock revenues).1 = 2) := by
  subst hl ho
  unfold revenueBlock
  rw [cagrBlock_pos revenues revMsgs hlen ⟨hop, hlp⟩]
  refine ⟨fun h => ?_, fun hle h => ?_, fun hle h => ?_, fun hle => ?_, fun heq => ?_⟩
  · rw [if_pos h]
  · rw [if_neg (not_lt.mpr hle), if_pos h]
  · rw [if_neg (not_lt.mpr (by linarith)), if_neg (not_lt.mpr hle), if_pos h]
  · rw [if_neg (not_lt.mpr (by linarith)), if_neg (not_lt.mpr (by linarith)),
      if_neg (not_lt.mpr hle)]
  · rw [if_neg (not_lt.mpr (le_of_eq heq)), if_pos (by rw [heq]; norm_num)]

/-- Witness for C3 at the boundary: revenues 108 then 100 give a one-year
CAGR of exactly 0.08, which earns 2 raw points, not the 3-point tier. -/
theorem spec_C3_witness : (revenueBlock [(108:ℚ), 100]).1 = 2 := by
  have hc : cagr (108:ℚ) (100:ℚ) (([(108:ℚ), 100]).length - 1) = (0.08 : ℝ) := by
    show cagr (108:ℚ) (100:ℚ) 1 = (0.08 : ℝ)
    rw [cagr_one]
    push_cast
    norm_num
  exact (spec_C3 [(108:ℚ), 100] 108 100 (by norm_num) rfl rfl (by norm_num)
    (by norm_num)).2.2.2.2 hc

/-- C4: every sub-scorer reports a score between 0 and 10, whatever the
shape of the records, prices and market cap supplied. -/
theorem spec_C4 (financial_line_items : List FinancialRecord)
    (prices : List PricePoint) (market_cap : Option ℚ) :
    (0 ≤ (analyze_growth_and_momentum financial_line_items prices).score
      ∧ (analyze_growth_and_momentum financial_line_items prices).score ≤ 10)
    ∧ (0 ≤ (analyze_risk_reward financial_line_items prices).score
      ∧ (analyze_risk_reward financial_line_items prices).score ≤ 10)
    ∧ (0 ≤ (analyze_valuation financial_line_items market_cap).score
      ∧ (analyze_valuation financial_line_items market_cap).score ≤ 10) := by
  refine ⟨?_, ?_, ?_⟩
  · unfold analyze_growth_and_momentum
    split_ifs
    · norm_num
    · exact scaled_score_bounds _ 9
  · unfold analyze_risk_reward
    split_ifs
    · norm_num
    · exact scaled_score_bounds _ 6
  · rcases market_cap with _ | mc
    · simp only [analyze_valuation]
      norm_num
    · simp only [analyze_valuation]
      split_ifs
      · norm_num
      · exact scaled_score_bounds _ 8

/-- C5: insufficient data never escalates to an error: below 2 records the
growth scorer, on empty records or prices the risk scorer, and on empty
records or a missing market cap the valuation scorer all return score 0
with their fixed explanatory sentence; and on every input whatsoever each
scorer returns a non-empty rationale string (the scorers are total
functions — every guarded branch, including all non-positive-denominator
cases, degrades to fewer points plus a sentence instead of raising). -/
theorem spec_C5 :
    (∀ (financial_line_items : List FinancialRecord) (prices : List PricePoint),
      financial_line_items.length < 2 →
      (analyze_growth_and_momentum financial_line_items prices).score = 0
      ∧ (analyze_growth_and_momentum financial_line_items prices).details
          = "Insufficient financial data for growth analysis")
    ∧ (∀ (financial_line_items : List FinancialRecord) (prices : List PricePoint),
      financial_line_items = [] ∨ prices = [] →
      (analyze_risk_reward financial_line_items prices).score = 0
      ∧ (analyze_risk_reward financial_line_items prices).details
          = "Insufficient data for risk-reward analysis")
    ∧ (∀ (financial_line_items : List FinancialRecord) (market_cap : Option ℚ),
      financial_line_items = [] ∨ market_cap = none →
      (analyze_valuation financial_line_items market_cap).score = 0
      ∧ (analyze_valuation financial_line_items market_cap).details
          = "Insufficient data to perform valuation")
    ∧ (∀ (financial_line_items : List FinancialRecord) (prices : List PricePoint),
      (analyze_growth_and_momentum financial_line_items prices).details ≠ "")
    ∧ (∀ (financial_line_items : List FinancialRecord) (prices : List PricePoint),
      (analyze_risk_reward financial_line_items prices).details ≠ "")
    ∧ (∀ (financial_line_items : List FinancialRecord) (market_cap : Option ℚ),
      (analyze_valuation financial_line_items market_cap).details ≠ "") := by
  refine ⟨?_, ?_, ?_, ?_, ?_, ?_⟩
  · intro records prices h
    unfold analyze_growth_and_momentum
    rw [if_pos (Or.inr h)]
    exact ⟨rfl, rfl⟩
  · intro records prices h
    unfold analyze_risk_reward
    rw [if_pos h]
    exact ⟨rfl, rfl⟩
  · intro records mc h
    rcases mc with _ | v
    · exact ⟨rfl, rfl⟩
    · rcases h with h | h
      · simp only [analyze_valuation]
        rw [if_pos h]
        exact ⟨rfl, rfl⟩
      · exact absurd h (by simp)
  · intro records prices
    unfold analyze_growth_and_momentum
    split_ifs
    · simp
    · exact intercalate3_ne_empty _ _ _
  · intro records prices
    unfold analyze_risk_reward
    split_ifs
    · simp
    · exact intercalate2_ne_empty _ _
  · intro records mc
    rcases mc with _ | v
    · simp [analyze_valuation]
    · simp only [analyze_valuation]
      split_ifs
      · simp
      · exact intercalate4_ne_empty _ _ _ _

/-- Witness for C5: concrete degraded calls return zero scores with their
explanatory sentences. -/
theorem spec_C5_witness :
    ((analyze_growth_and_momentum [] []).score = 0
      ∧ (analyze_growth_and_momentum [] []).details
          = "Insufficient financial data for growth analysis")
    ∧ ((analyze_risk_reward [] []).score = 0
      ∧ (analyze_risk_reward [] []).details
          = "Insufficient data for risk-reward analysis")
    ∧ ((analyze_valuation [] none).score = 0
      ∧ (analyze_valuation [] none).details
          = "Insufficient data to perform valuation") :=
  ⟨spec_C5.1 [] [] (by norm_num), spec_C5.2.1 [] [] (Or.inl rfl),
    spec_C5.2.2.1 [] none (Or.inr rfl)⟩

/-- C6: the normalizer rejects every period other than "annual" with an
invalid-argument error, and when all three statement frames are missing or
empty it returns the empty record list instead of failing. -/
theorem spec_C6 :
    (∀ (income balance cashflow : Option Frame) (line_items : List String)
        (period : String) (limit : ℕ), period ≠ "annual" →
      yf_search_line_items income balance cashflow line_items period limit
        = Except.error "Only annual period is supported for yf_search_line_items")
    ∧ (∀ (income balance cashflow : Option Frame) (line_items : List String)
        (limit : ℕ),
      (∀ f ∈ ([income, balance, cashflow].filterMap id), f.isEmpty = true) →
      yf_search_line_items income balance cashflow line_items "annual" limit
        = Except.ok []) := by
  constructor
  · intro i b c li p lim hp
    unfold yf_search_line_items
    rw [if_pos hp]
  · intro i b c li lim hall
    unfold yf_search_line_items
    rw [if_neg (by simp), if_pos ?_]
    rw [List.filter_eq_nil_iff]
    intro f hf
    simp [hall f hf]

/-- Witness for C6: a quarterly request errors out, and three empty or
missing frames normalize to the empty record list. -/
theorem spec_C6_witness :
    yf_search_line_items none none none ["revenue"] "quarterly" 4
      = Except.error "Only annual period is supported for yf_search_line_items"
    ∧ yf_search_line_items none (some ⟨[], []⟩) (some ⟨[2023], []⟩) ["revenue"] "annual" 4
      = Except.ok [] :=
  ⟨spec_C6.1 none none none ["revenue"] "quarterly" 4 (by decide),
   spec_C6.2 none (some ⟨[], []⟩) (some ⟨[2023], []⟩) ["revenue"] 4 (by decide)⟩

/-- C7: the momentum sub-scale is skipped (with the not-enough-data
sentence and 0 points) whenever the price list has exactly 30 points, the
strictly-greater-than-30 guard; when it runs with a positive first close it
scores the full-range percentage change by the strict thresholds `>0.50`
for 3, `>0.20` for 2, `>0` for 1, else 0. -/
theorem spec_C7 :
    (∀ prices : List PricePoint, prices.length = 30 →
      momentumBlock prices
        = (0, "Not enough recent price data for momentum analysis."))
    ∧ (∀ (prices : List PricePoint) (s e : ℚ), 30 < prices.length →
      2 ≤ (prices.filterMap (fun p => p.close)).length →
      (prices.filterMap (fun p => p.close)).headD 0 = s →
      (prices.filterMap (fun p => p.close)).getLastD 0 = e →
      0 < s →
      ((0.50 < (e - s) / s →
          momentumBlock prices = (3, "Very strong price momentum"))
      ∧ ((e - s) / s ≤ 0.50 → 0.20 < (e - s) / s →
          momentumBlock prices = (2, "Moderate price momentum"))
      ∧ ((e - s) / s ≤ 0.20 → 0 < (e - s) / s →
          momentumBlock prices = (1, "Slight positive momentum"))
      ∧ ((e - s) / s ≤ 0 →
          momentumBlock prices = (0, "Negative price momentum")))) := by
  constructor
  · intro prices h
    unfold momentumBlock
    rw [if_neg (by rintro ⟨-, h30⟩; omega)]
  · intro prices s e h30 hlen2 hs he hspos
    unfold momentumBlock
    rw [if_pos ⟨List.length_pos.mp (by omega), h30⟩, if_pos hlen2, hs, he,
      if_pos hspos]
    refine ⟨fun h => ?_, fun hle h => ?_, fun hle h => ?_, fun hle => ?_⟩
    · rw [if_pos h]
    · rw [if_neg (not_lt.mpr hle), if_pos h]
    · rw [if_neg (not_lt.mpr (by linarith)), if_neg (not_lt.mpr hle), if_pos h]
    · rw [if_neg (not_lt.mpr (by linarith)), if_neg (not_lt.mpr (by linarith)),
        if_neg (not_lt.mpr hle)]

/-- Witness for C7: exactly 30 bars are skipped with the not-enough-data
sentence, and 31 bars going from 10 to 20 score the very-strong tier. -/
theorem spec_C7_witness :
    momentumBlock (List.replicate 30 ({ close := some 10 } : PricePoint))
      = (0, "Not enough recent price data for momentum analysis.")
    ∧ momentumBlock (List.replicate 30 ({ close := some 10 } : PricePoint)
        ++ [({ close := some 20 } : PricePoint)])
      = (3, "Very strong price momentum") := by
  constructor
  · exact spec_C7.1 _ (by decide)
  · refine (spec_C7.2 (List.replicate 30 ({ close := some 10 } : PricePoint)
      ++ [({ close := some 20 } : PricePoint)]) 10 20 (by decide) ?_ ?_ ?_
      (by norm_num)).1 (by norm_num)
    · have hcl : (List.replicate 30 ({ close := some 10 } : PricePoint)
          ++ [({ close := some 20 } : PricePoint)]).filterMap (fun p => p.close)
          = List.replicate 30 (10:ℚ) ++ [20] := by decide
      rw [hcl]
      decide
    · have hcl : (List.replicate 30 ({ close := some 10 } : PricePoint)
          ++ [({ close := some 20 } : PricePoint)]).filterMap (fun p => p.close)
          = List.replicate 30 (10:ℚ) ++ [20] := by decide
      rw [hcl]
      decide
    · have hcl : (List.replicate 30 ({ close := some 10 } : PricePoint)
          ++ [({ close := some 20 } : PricePoint)]).filterMap (fun p => p.close)
          = List.replicate 30 (10:ℚ) ++ [20] := by decide
      rw [hcl]
      decide

/-- C8: the leverage thresholds are strictly exclusive: newest debt 30 over
newest equity 100 gives a ratio of exactly 0.30, which is not below 0.3,
falls into the below-0.7 tier, and earns exactly 2 raw points. -/
theorem spec_C8 (ds es : List ℚ)
    (hlen : ((30:ℚ) :: ds).length = ((100:ℚ) :: es).length) :
    ¬ ((30:ℚ) / 100 < 0.3)
    ∧ (30:ℚ) / 100 < 0.7
    ∧ leverageBlock ((30:ℚ) :: ds) ((100:ℚ) :: es)
        = (2, "Moderate debt-to-equity") := by
  refine ⟨by norm_num, by norm_num, ?_⟩
  unfold leverageBlock
  rw [if_pos ⟨by simp, by simp, hlen, by simp⟩]
  simp only [List.headD_cons]
  rw [if_neg (by norm_num : ¬(100:ℚ) = 0)]
  norm_num

/-- Witness for C8 at the two singleton series. -/
theorem spec_C8_witness :
    leverageBlock [(30:ℚ)] [(100:ℚ)] = (2, "Moderate debt-to-equity") :=
  (spec_C8 [] [] rfl).2.2

/-- C9: a strictly negative newest equity is used as-is (the 1e-9 floor
replaces only an exactly-zero equity), so with positive newest debt the
ratio is negative, hence below 0.3, and the leverage sub-scale awards the
full 3 points with the low-debt-to-equity rationale. -/
theorem spec_C9 (d e : ℚ) (ds es : List ℚ) (he : e < 0) (hd : 0 < d)
    (hlen : (d :: ds).length = (e :: es).length) :
    leverageBlock (d :: ds) (e :: es) = (3, "Low debt-to-equity") := by
  unfold leverageBlock
  rw [if_pos ⟨by simp, by simp, hlen, by simp⟩]
  simp only [List.headD_cons]
  rw [if_neg (ne_of_lt he),
    if_pos (lt_trans (div_neg_of_pos_of_neg hd he) (by norm_num : (0:ℚ) < 0.3))]

/-- Witness for C9: debt 30 against equity -100 earns the 3-point tier. -/
theorem spec_C9_witness :
    leverageBlock [(30:ℚ)] [(-100:ℚ)] = (3, "Low debt-to-equity") :=
  spec_C9 30 (-100) [] [] (by norm_num) (by norm_num) rfl

/-- The scaled score of a zero raw total is zero after rounding. -/
theorem roundTo2_scaled_zero (den : ℕ) :
    roundTo2 (min 10 (((0:ℕ) : ℚ) / den * 10)) = 0 := by
  rw [show ((0:ℕ) : ℚ) / den * 10 = 0 by norm_num,
    min_eq_right (by norm_num : (0:ℚ) ≤ 10)]
  norm_num [roundTo2, rhe]

/-- C10: every sub-scorer's reported score is `min(10, raw/denominator*10)`
put through the 2-decimal format round-trip (denominators 9, 6 and 8), the
composite `score` is the sub-score sum put through the 1-decimal round-trip,
and each round-trip moves a value by at most half a unit in the last
retained digit. -/
theorem spec_C10 :
    (∀ (financial_line_items : List FinancialRecord) (prices : List PricePoint),
      ∃ raw : ℕ, raw ≤ 9 ∧
        (analyze_growth_and_momentum financial_line_items prices).score
          = roundTo2 (min 10 ((raw : ℚ) / 9 * 10)))
    ∧ (∀ (financial_line_items : List FinancialRecord) (prices : List PricePoint),
      ∃ raw : ℕ, raw ≤ 6 ∧
        (analyze_risk_reward financial_line_items prices).score
          = roundTo2 (min 10 ((raw : ℚ) / 6 * 10)))
    ∧ (∀ (financial_line_items : List FinancialRecord) (market_cap : Option ℚ),
      ∃ raw : ℕ, raw ≤ 8 ∧
        (analyze_valuation financial_line_items market_cap).score
          = roundTo2 (min 10 ((raw : ℚ) / 8 * 10)))
    ∧ (∀ (financial_line_items : List FinancialRecord) (prices : List PricePoint)
        (market_cap : Option ℚ),
      (stanley_druckenmiller_agent financial_line_items prices market_cap).score
        = roundTo1 ((analyze_growth_and_momentum financial_line_items prices).score
            + (analyze_risk_reward financial_line_items prices).score
            + (analyze_valuation financial_line_items market_cap).score))
    ∧ (∀ q : ℚ, |roundTo2 q - q| ≤ 1/200)
    ∧ (∀ q : ℚ, |roundTo1 q - q| ≤ 1/20) := by
  refine ⟨?_, ?_, ?_, fun _ _ _ => rfl, abs_roundTo2_sub, abs_roundTo1_sub⟩
  · intro records prices
    unfold analyze_growth_and_momentum
    split_ifs
    · exact ⟨0, by norm_num, (roundTo2_scaled_zero 9).symm⟩
    · refine ⟨_, ?_, rfl⟩
      have h1 := cagrBlock_le_three (records.filterMap (fun fi => fi.revenue)) revMsgs
      have h2 := cagrBlock_le_three
        (records.filterMap (fun fi => fi.earnings_per_share)) epsMsgs
      have h3 := momentumBlock_le_three prices
      unfold revenueBlock epsBlock
      omega
  · intro records prices
    unfold analyze_risk_reward
    split_ifs
    · exact ⟨0, by norm_num, (roundTo2_scaled_zero 6).symm⟩
    · refine ⟨_, ?_, rfl⟩
      have h1 := leverageBlock_le_three (records.filterMap (fun fi => fi.total_debt))
        (records.filterMap (fun fi => fi.shareholders_equity))
      have h2 := volatilityBlock_le_three prices
      omega
  · intro records mc
    rcases mc with _ | v
    · exact ⟨0, by norm_num, by
        simp only [analyze_valuation]
        exact (roundTo2_scaled_zero 8).symm⟩
    · simp only [analyze_valuation]
      split_ifs
      · exact ⟨0, by norm_num, (roundTo2_scaled_zero 8).symm⟩
      · refine ⟨_, ?_, rfl⟩
        have h1 := peBlock_le_two v (records.filterMap (fun fi => fi.net_income))
        have h2 := pfcfBlock_le_two v (records.filterMap (fun fi => fi.free_cash_flow))
        have h3 := evEbitBlock_le_two (enterpriseValue v records)
          (records.filterMap (fun fi => fi.ebit))
        have h4 := evEbitdaBlock_le_two (enterpriseValue v records)
          (records.filterMap (fun fi => fi.ebitda))
        omega

end Dexter

